import Mathlib

/-!
Shallow embedding of `app.py` of the AI-Blog-Generator repository.

The program is a single-file Streamlit app: a liveness probe
(`check_ollama_connection`), a generation call
(`generate_blog_with_ollama`), a sidebar that derives the model options
from the probe, and a submit handler that branches on a marker prefix of
the generated string.

Network effects are embedded by passing the outcome of each HTTP request
as an explicit value: `TagsOutcome` is the outcome of the
`GET api tags` probe request, `GenOutcome` the outcome of the
`POST api generate` request.  The generation function additionally
returns a Bool recording whether the POST was issued, so that claims
about "never attempts the network call" are statable.

Note on characters: the repository file stores its marker characters as
the literal three-character sequence U+201A U+00F9 U+00E5 (the UTF-8
bytes of the cross-mark emoji decoded under a legacy codepage) and the
six-character sequence U+201A U+00E8 U+00B1 U+00D4 U+220F U+00E8 for the
stopwatch.  The same literal sequences appear both in the error strings
and in the submit handler's startswith tests, so the program is
self-consistent; the embedding reproduces the file's literal characters.

The value `ollama_api_key` is imported from a configuration module that
is not part of the repository; it is passed as the `api` parameter.
-/

/-- The single-quote character, written by code point to keep string
literals free of bare apostrophes. -/
def quoteMark : String := String.singleton (Char.ofNat 39)

/-- Leading marker of all cross-mark-classified error strings
(the file's literal rendering of the cross-mark emoji). -/
def errMark : String := "‚ùå"

/-- Leading marker of the timeout error string
(the file's literal rendering of the stopwatch emoji). -/
def timeMark : String := "‚è±Ô∏è"

/-- Python's `s.startswith(p)`: `p` is a prefix of `s`. -/
def strStartsWith (s p : String) : Bool := decide (p.data <+: s.data)

/-- One entry of the "models" array of the probe response body;
`name` is `none` when the entry has no "name" field
(`model.get("name", "")`, `app.py` line 16). -/
structure ModelEntry where
  name : Option String

/-- Parsed JSON body of the probe response; `models` is `none` when the
body has no "models" field (`response.json().get("models", [])`,
`app.py` line 15). -/
structure TagsBody where
  models : Option (List ModelEntry)

/-- Outcome of the `GET api tags` request issued by
`check_ollama_connection` (`app.py` line 13).  `reqError` is any
`requests.exceptions.RequestException` raised by the request itself;
`response status body` is an HTTP response, with `body = none` when the
body is not valid JSON (in which case `.json()` raises a
`JSONDecodeError`, which is a `RequestException` in the `requests`
library and is caught by line 18). -/
inductive TagsOutcome where
  | reqError
  | response (status : Nat) (body : Option TagsBody)

/-- `check_ollama_connection` (`app.py` lines 10-19). -/
def check_ollama_connection (o : TagsOutcome) : Bool × List String :=
  match o with
  | .reqError => (false, [])
  | .response status body =>
    if status = 200 then
      match body with
      | some b => (true, (b.models.getD []).map (fun m => m.name.getD ""))
      | none => (false, [])
    else
      (false, [])

/-- Parsed JSON body of the generation response: the optional "error"
and "response" fields (`app.py` lines 83 and 97). -/
structure GenBody where
  error : Option String
  response : Option String

/-- Outcome of the `POST api generate` request (`app.py` line 77).
`timeout` is `requests.exceptions.Timeout`, `connectionError` is
`requests.exceptions.ConnectionError`, `reqException msg` is any other
`RequestException` raised by the request itself with `str(e) = msg`.
`response status httpErrText body` is an HTTP response; `httpErrText`
is the library-formatted `str(HTTPError)` that `raise_for_status()`
would raise for a 4xx/5xx status (its text is produced by the
`requests` library, not by this repository), and `body` is
`Except.error msg` when the body is not valid JSON, with `msg` the text
of the decode exception. -/
inductive GenOutcome where
  | timeout
  | connectionError
  | reqException (msg : String)
  | response (status : Nat) (httpErrText : String) (body : Except String GenBody)

/-- The cannot-connect message (`app.py` lines 37-39). -/
def cannotConnectMsg : String :=
  "‚ùå **Error: Cannot connect to Ollama**\n\n" ++
  "Make sure Ollama is running. Start it with:\n" ++
  "```bash\nollama serve\n```"

/-- Python `m.split(":")[0]`: a model identifier with everything from
the first colon on removed.  (`split` cuts at each colon and `[0]` keeps
the first piece, i.e. the longest colon-free prefix; rendered over the
character list so that it evaluates inside the kernel.)
(`app.py` lines 42 and 134). -/
def baseName (m : String) : String :=
  String.mk (m.data.takeWhile (fun c => !(c == ':')))

/-- The model-not-found message (`app.py` lines 44-47). -/
def modelNotFoundMsg (model : String) (model_names : List String) : String :=
  "‚ùå **Error: Model " ++ quoteMark ++ model ++ quoteMark ++ " not found**\n\n" ++
  "Available models: " ++
  (if model_names.isEmpty then "None" else String.intercalate ", " model_names) ++
  "\n\n" ++
  "Install the model with:\n" ++
  "```bash\nollama pull " ++ model ++ "\n```"

/-- The prompt composed from the blog details (`app.py` lines 50-63). -/
def ollamaPrompt (blog_title keywords : String) (num_words : Nat) : String :=
  "Write a comprehensive blog post with the following details:\n    \n" ++
  "Title: " ++ blog_title ++ "\n" ++
  "Keywords: " ++ keywords ++ "\n" ++
  "Target word count: " ++ toString num_words ++ " words\n\n" ++
  "Please write a well-structured blog post that:\n" ++
  "1. Has an engaging introduction\n" ++
  "2. Covers the topic thoroughly\n" ++
  "3. Uses the provided keywords naturally\n" ++
  "4. Has clear sections and paragraphs\n" ++
  "5. Includes a conclusion\n\n" ++
  "Blog post:"

/-- The 404 message (`app.py` lines 87-91); `api` is the configured
base URL, so the endpoint shown is `api ++ "/api/generate"`. -/
def notFound404Msg (error_msg model api : String) : String :=
  "‚ùå **404 Error: " ++ error_msg ++ "**\n\n" ++
  "Make sure:\n" ++
  "1. The model " ++ quoteMark ++ model ++ quoteMark ++ " is installed: `ollama pull " ++ model ++ "`\n" ++
  "2. Ollama is running: `ollama serve`\n" ++
  "3. The endpoint is correct: " ++ api ++ "/api/generate"

/-- The timeout message (`app.py` lines 100-101). -/
def timeoutMsg : String :=
  "‚è±Ô∏è **Timeout Error**\n\n" ++
  "The request took too long. Try reducing the word count or using a smaller model."

/-- The connection-error message (`app.py` lines 104-107). -/
def connectionErrorMsg (api : String) : String :=
  "‚ùå **Connection Error**\n\nCannot connect to Ollama at " ++ api ++
  "\n\nMake sure Ollama is running:\n```bash\nollama serve\n```"

/-- The generic request-failure message (`app.py` lines 110-111),
carrying `str(e)` of the underlying exception. -/
def genericErrorMsg (e api : String) : String :=
  "‚ùå **Error: " ++ e ++ "**\n\nCheck that Ollama is running on " ++ api

/-- `generate_blog_with_ollama` (`app.py` lines 21-111).  `probe` is the
outcome of the liveness probe it re-runs first, `post` the outcome of
the generation POST (consulted only if the POST is reached), `api` the
configured base URL.  Returns the string the function returns together
with a Bool that is true exactly when the POST of line 77 was issued. -/
def generate_blog_with_ollama (probe : TagsOutcome) (post : GenOutcome) (api : String)
    (blog_title keywords : String) (num_words : Nat) (model : String) :
    String × Bool :=
  let _prompt := ollamaPrompt blog_title keywords num_words
  let pc := check_ollama_connection probe
  let is_running := pc.1
  let available_models := pc.2
  if is_running = false then
    (cannotConnectMsg, false)
  else
    let model_names := available_models.map baseName
    if model ∉ model_names then
      (modelNotFoundMsg model model_names, false)
    else
      match post with
      | .timeout => (timeoutMsg, true)
      | .connectionError => (connectionErrorMsg api, true)
      | .reqException e => (genericErrorMsg e api, true)
      | .response status httpErrText body =>
        if status = 404 then
          let error_msg :=
            match body with
            | .ok b => b.error.getD "Model not found"
            | .error _ => "404 Not Found - Model may not exist or endpoint is incorrect"
          (notFound404Msg error_msg model api, true)
        else if 400 ≤ status ∧ status < 600 then
          (genericErrorMsg httpErrText api, true)
        else
          match body with
          | .ok b => (b.response.getD "Error: No response from Ollama", true)
          | .error e => (genericErrorMsg e api, true)

/-- Python `list(dict.fromkeys(xs))`: first-occurrence deduplication
preserving order (`app.py` line 135). -/
def dedupFirst (xs : List String) : List String :=
  xs.foldl (fun acc x => if x ∈ acc then acc else acc ++ [x]) []

/-- The sidebar's model options (`app.py` lines 132-139): base names of
the probed models, deduplicated preserving order, or a static fallback
list when the probe returned no models. -/
def model_options (available_models : List String) : List String :=
  if available_models.isEmpty then
    ["llama2", "llama3", "mistral", "codellama", "phi", "neural-chat"]
  else
    dedupFirst (available_models.map baseName)

/-- The marker test of the submit handler (`app.py` line 167):
the content starts with the cross-mark marker or the stopwatch marker. -/
def startsWithMarker (s : String) : Bool :=
  strStartsWith s errMark || strStartsWith s timeMark

/-- What the submit handler renders (`app.py` lines 154-179): a warning
when the title is empty, an error box when the generated string carries
a marker, otherwise the success view; only the success view offers the
download of the content under the derived file name. -/
inductive Rendered where
  | warning (msg : String)
  | errorBox (msg : String)
  | success (heading content fileName : String)
deriving DecidableEq

/-- The submit-button handler (`app.py` lines 154-179). -/
def submit_button_handler (probe : TagsOutcome) (post : GenOutcome) (api : String)
    (blog_title keywords : String) (numb_words : Nat) (model : String) : Rendered :=
  if blog_title = "" then
    .warning "Please enter a blog title"
  else
    let blog_content :=
      (generate_blog_with_ollama probe post api blog_title keywords numb_words model).1
    if startsWithMarker blog_content then
      .errorBox blog_content
    else
      .success ("Generated Blog: " ++ blog_title) blog_content
        (blog_title.replace " " "_" ++ "_blog.txt")

/-! ## Concrete fixtures used by counterexamples and witnesses -/

/-- A probe outcome listing the single installed model "llama2:latest". -/
def probeLlama : TagsOutcome :=
  .response 200 (some ⟨some [⟨some "llama2:latest"⟩]⟩)

/-- A probe outcome listing "llama2:7b", "llama2:13b", "mistral:latest". -/
def probeThree : TagsOutcome :=
  .response 200 (some ⟨some [⟨some "llama2:7b"⟩, ⟨some "llama2:13b"⟩, ⟨some "mistral:latest"⟩]⟩)

/-- A probe outcome listing the single installed model "llama2:7b". -/
def probeSeven : TagsOutcome :=
  .response 200 (some ⟨some [⟨some "llama2:7b"⟩]⟩)

/-- A successful generation response whose body's "response" field is
"Hello world". -/
def postHello : GenOutcome :=
  .response 200 "" (.ok ⟨none, some "Hello world"⟩)

/-- A concrete base URL standing for the configured `ollama_api_key`. -/
def apiDefault : String := "http://localhost:11434"

/-! ## Helper lemmas -/

theorem strStartsWith_append (p a b : String) (h : strStartsWith a p = true) :
    strStartsWith (a ++ b) p = true := by
  have h' : p.data <+: a.data := of_decide_eq_true h
  have : p.data <+: (a ++ b).data := by
    rw [String.data_append]
    exact h'.trans (List.prefix_append a.data b.data)
  exact decide_eq_true this

theorem marked_of_errMark (s : String) (h : strStartsWith s errMark = true) :
    startsWithMarker s = true := by
  unfold startsWithMarker
  rw [h, Bool.true_or]

theorem marked_cannotConnectMsg : startsWithMarker cannotConnectMsg = true := by decide

theorem marked_timeoutMsg : startsWithMarker timeoutMsg = true := by decide

theorem marked_modelNotFoundMsg (m : String) (ns : List String) :
    startsWithMarker (modelNotFoundMsg m ns) = true := by
  apply marked_of_errMark
  unfold modelNotFoundMsg
  repeat apply strStartsWith_append
  decide

theorem marked_notFound404Msg (e m api : String) :
    startsWithMarker (notFound404Msg e m api) = true := by
  apply marked_of_errMark
  unfold notFound404Msg
  repeat apply strStartsWith_append
  decide

theorem marked_connectionErrorMsg (api : String) :
    startsWithMarker (connectionErrorMsg api) = true := by
  apply marked_of_errMark
  unfold connectionErrorMsg
  repeat apply strStartsWith_append
  decide

theorem marked_genericErrorMsg (e api : String) :
    startsWithMarker (genericErrorMsg e api) = true := by
  apply marked_of_errMark
  unfold genericErrorMsg
  repeat apply strStartsWith_append
  decide

theorem string_ne_of_prefix_ne (s t p q : String)
    (hp : strStartsWith s p = true) (hq : strStartsWith t q = true)
    (hl : p.data.length = q.data.length) (hne : p.data ≠ q.data) : s ≠ t := by
  intro he
  subst he
  have hp' : p.data <+: s.data := of_decide_eq_true hp
  have hq' : q.data <+: s.data := of_decide_eq_true hq
  have hpq : p.data <+: q.data :=
    List.prefix_of_prefix_length_le hp' hq' (le_of_eq hl)
  exact hne (hpq.eq_of_length hl)

/-! ## Claims -/

/-- Claim C4: for every outcome of the liveness probe request — a raised
request exception (refused connection, timeout), a non-200 status, or an
unparseable body — `check_ollama_connection` returns `(false, [])` and,
being a total function of the outcome, never raises to its caller. -/
theorem c4_probe_failure_returns_false_nil :
    check_ollama_connection TagsOutcome.reqError = (false, [])
    ∧ (∀ status body, status ≠ 200 →
        check_ollama_connection (TagsOutcome.response status body) = (false, []))
    ∧ (∀ status, check_ollama_connection (TagsOutcome.response status none) = (false, [])) := by
  refine ⟨rfl, ?_, ?_⟩
  · intro status body h
    unfold check_ollama_connection
    simp [h]
  · intro status
    unfold check_ollama_connection
    by_cases h : status = 200 <;> simp [h]

/-- Witness for C4 at status 500 with an unparseable body. -/
theorem c4_probe_failure_returns_false_nil_witness :
    check_ollama_connection (TagsOutcome.response 500 none) = (false, []) :=
  c4_probe_failure_returns_false_nil.2.1 500 none (by decide)

/-- Claim C5: whenever the pre-submission probe reports the service
unavailable, `generate_blog_with_ollama` returns the cannot-connect
message and the POST to the generation endpoint is never issued
(the issued-flag of the embedding is `false`). -/
theorem c5_unreachable_no_post (probe : TagsOutcome) (post : GenOutcome)
    (api blog_title keywords model : String) (num_words : Nat)
    (h : (check_ollama_connection probe).1 = false) :
    generate_blog_with_ollama probe post api blog_title keywords num_words model
      = (cannotConnectMsg, false) := by
  unfold generate_blog_with_ollama
  simp [h]

/-- Witness for C5: a probe that raised a request exception. -/
theorem c5_unreachable_no_post_witness :
    generate_blog_with_ollama TagsOutcome.reqError postHello apiDefault
      "My Blog" "ai" 250 "llama2" = (cannotConnectMsg, false) :=
  c5_unreachable_no_post TagsOutcome.reqError postHello apiDefault
    "My Blog" "ai" "llama2" 250 (by decide)

/-- Claim C7: when the probe reports available, the requested model's
base name is in the probed list, and the service answers 200 with a body
whose "response" field is "Hello world", the function returns exactly
"Hello world", which carries no marker prefix. -/
theorem c7_success_returns_text (herr api blog_title keywords : String) (num_words : Nat) :
    generate_blog_with_ollama probeLlama
        (GenOutcome.response 200 herr (Except.ok ⟨none, some "Hello world"⟩))
        api blog_title keywords num_words "llama2"
      = ("Hello world", true)
    ∧ startsWithMarker "Hello world" = false := by
  refine ⟨?_, by decide⟩
  unfold generate_blog_with_ollama
  simp [check_ollama_connection, probeLlama, baseName]

theorem notFound404Msg_contains (e m api : String) :
    ∃ pre suf, notFound404Msg e m api = pre ++ (e ++ suf) := by
  refine ⟨"‚ùå **404 Error: ",
    "**\n\n" ++ "Make sure:\n" ++ "1. The model " ++ quoteMark ++ m ++ quoteMark ++
      " is installed: `ollama pull " ++ m ++ "`\n" ++ "2. Ollama is running: `ollama serve`\n" ++
      "3. The endpoint is correct: " ++ api ++ "/api/generate", ?_⟩
  unfold notFound404Msg
  apply String.ext
  simp [String.data_append, List.append_assoc]

/-- Claim C6: every HTTP 404 response to the generation call is returned
(not raised) as a not-found message: when the body parses as JSON with
an "error" field the message contains that server error text, and when
the body is unparseable the message contains the generic fallback phrase
"404 Not Found - Model may not exist or endpoint is incorrect". -/
theorem c6_404_reports_server_error_or_fallback (probe : TagsOutcome)
    (e pe herr api blog_title keywords model : String) (num_words : Nat)
    (ropt : Option String)
    (h1 : (check_ollama_connection probe).1 = true)
    (h2 : model ∈ ((check_ollama_connection probe).2).map baseName) :
    (generate_blog_with_ollama probe
        (GenOutcome.response 404 herr (Except.ok ⟨some e, ropt⟩))
        api blog_title keywords num_words model).1
      = notFound404Msg e model api
    ∧ (∃ pre suf, notFound404Msg e model api = pre ++ (e ++ suf))
    ∧ (generate_blog_with_ollama probe
        (GenOutcome.response 404 herr (Except.error pe))
        api blog_title keywords num_words model).1
      = notFound404Msg "404 Not Found - Model may not exist or endpoint is incorrect" model api
    ∧ (∃ pre suf,
        notFound404Msg "404 Not Found - Model may not exist or endpoint is incorrect" model api
          = pre ++ ("404 Not Found - Model may not exist or endpoint is incorrect" ++ suf)) := by
  refine ⟨?_, notFound404Msg_contains e model api, ?_,
    notFound404Msg_contains "404 Not Found - Model may not exist or endpoint is incorrect" model api⟩
  · unfold generate_blog_with_ollama
    simp [h1, h2]
  · unfold generate_blog_with_ollama
    simp [h1, h2]

/-- Witness for C6: the probed model "llama2:latest", request "llama2",
server error text "model missing" (resp. an unparseable body). -/
theorem c6_404_reports_server_error_or_fallback_witness :
    (generate_blog_with_ollama probeLlama
        (GenOutcome.response 404 "" (Except.ok ⟨some "model missing", none⟩))
        apiDefault "My Blog" "ai" 250 "llama2").1
      = notFound404Msg "model missing" "llama2" apiDefault
    ∧ (∃ pre suf, notFound404Msg "model missing" "llama2" apiDefault
        = pre ++ ("model missing" ++ suf))
    ∧ (generate_blog_with_ollama probeLlama
        (GenOutcome.response 404 "" (Except.error "Expecting value"))
        apiDefault "My Blog" "ai" 250 "llama2").1
      = notFound404Msg "404 Not Found - Model may not exist or endpoint is incorrect" "llama2" apiDefault
    ∧ (∃ pre suf,
        notFound404Msg "404 Not Found - Model may not exist or endpoint is incorrect" "llama2" apiDefault
          = pre ++ ("404 Not Found - Model may not exist or endpoint is incorrect" ++ suf)) :=
  c6_404_reports_server_error_or_fallback probeLlama "model missing" "Expecting value"
    "" apiDefault "My Blog" "ai" "llama2" 250 none (by decide) (by decide)

/-- Claim C8: a successful (2xx) generation response whose JSON body has
no "response" field makes the function return the fixed non-empty error
string "Error: No response from Ollama" instead of an unhandled fault. -/
theorem c8_missing_response_field_nonempty_error (probe : TagsOutcome)
    (status : Nat) (herr api blog_title keywords model : String) (num_words : Nat)
    (eopt : Option String)
    (h1 : (check_ollama_connection probe).1 = true)
    (h2 : model ∈ ((check_ollama_connection probe).2).map baseName)
    (h3 : 200 ≤ status) (h4 : status < 300) :
    (generate_blog_with_ollama probe
        (GenOutcome.response status herr (Except.ok ⟨eopt, none⟩))
        api blog_title keywords num_words model).1
      = "Error: No response from Ollama"
    ∧ "Error: No response from Ollama" ≠ "" := by
  have h404 : status ≠ 404 := by omega
  have hrange : ¬(400 ≤ status ∧ status < 600) := by omega
  refine ⟨?_, by decide⟩
  unfold generate_blog_with_ollama
  simp [h1, h2, h404, hrange]

/-- Witness for C8 at status 200. -/
theorem c8_missing_response_field_nonempty_error_witness :
    (generate_blog_with_ollama probeLlama
        (GenOutcome.response 200 "" (Except.ok ⟨none, none⟩))
        apiDefault "My Blog" "ai" 250 "llama2").1
      = "Error: No response from Ollama"
    ∧ "Error: No response from Ollama" ≠ "" :=
  c8_missing_response_field_nonempty_error probeLlama 200 "" apiDefault
    "My Blog" "ai" "llama2" 250 none (by decide) (by decide) (by decide) (by decide)

/-- Claim C9: after the checks pass, a timeout yields the timeout
message, a connection refusal yields the connection message, any other
request exception yields the generic message carrying the underlying
text, and the three are pairwise textually distinct whatever the
underlying exception text and configured base URL are. -/
theorem c9_distinct_error_classes (api e blog_title keywords : String) (num_words : Nat) :
    (generate_blog_with_ollama probeLlama GenOutcome.timeout
        api blog_title keywords num_words "llama2").1 = timeoutMsg
    ∧ (generate_blog_with_ollama probeLlama GenOutcome.connectionError
        api blog_title keywords num_words "llama2").1 = connectionErrorMsg api
    ∧ (generate_blog_with_ollama probeLlama (GenOutcome.reqException e)
        api blog_title keywords num_words "llama2").1 = genericErrorMsg e api
    ∧ timeoutMsg ≠ connectionErrorMsg api
    ∧ timeoutMsg ≠ genericErrorMsg e api
    ∧ connectionErrorMsg api ≠ genericErrorMsg e api := by
  refine ⟨?_, ?_, ?_, ?_, ?_, ?_⟩
  · unfold generate_blog_with_ollama
    simp [check_ollama_connection, probeLlama, baseName]
  · unfold generate_blog_with_ollama
    simp [check_ollama_connection, probeLlama, baseName]
  · unfold generate_blog_with_ollama
    simp [check_ollama_connection, probeLlama, baseName]
  · apply string_ne_of_prefix_ne timeoutMsg (connectionErrorMsg api) "‚è" "‚ù"
    · decide
    · unfold connectionErrorMsg
      repeat apply strStartsWith_append
      decide
    · decide
    · decide
  · apply string_ne_of_prefix_ne timeoutMsg (genericErrorMsg e api) "‚è" "‚ù"
    · decide
    · unfold genericErrorMsg
      repeat apply strStartsWith_append
      decide
    · decide
    · decide
  · apply string_ne_of_prefix_ne (connectionErrorMsg api) (genericErrorMsg e api)
      "‚ùå **C" "‚ùå **E"
    · unfold connectionErrorMsg
      repeat apply strStartsWith_append
      decide
    · unfold genericErrorMsg
      repeat apply strStartsWith_append
      decide
    · decide
    · decide

/-- Claim C1, counterexample: with the service available, the model
installed, and a 200 response whose JSON body has no "response" field,
the function returns the failure string "Error: No response from Ollama"
(the §7 "empty-response" class), which starts with no marker character,
so this failure-path return value is not distinguishable from success by
the leading markers. -/
theorem c1_counterexample_unmarked_empty_response :
    (generate_blog_with_ollama probeLlama
        (GenOutcome.response 200 "" (Except.ok ⟨none, none⟩))
        apiDefault "My Blog" "ai" 250 "llama2").1
      = "Error: No response from Ollama"
    ∧ startsWithMarker "Error: No response from Ollama" = false := by
  constructor
  · unfold generate_blog_with_ollama
    simp [check_ollama_connection, probeLlama, baseName]
  · decide

/-- Claim C1 (amended): for every input the generation function returns
exactly one string and, being total, never raises past its boundary;
every return value either starts with a marker character, or is the
unmarked empty-response fallback "Error: No response from Ollama", or is
the text of the "response" field of a successfully parsed generation
response body (the success case). -/
theorem c1_amended_classification (probe : TagsOutcome) (post : GenOutcome)
    (api blog_title keywords model : String) (num_words : Nat) :
    startsWithMarker
        (generate_blog_with_ollama probe post api blog_title keywords num_words model).1 = true
    ∨ (generate_blog_with_ollama probe post api blog_title keywords num_words model).1
        = "Error: No response from Ollama"
    ∨ (∃ status herr b, post = GenOutcome.response status herr (Except.ok b)
        ∧ b.response = some
            (generate_blog_with_ollama probe post api blog_title keywords num_words model).1) := by
  by_cases h1 : (check_ollama_connection probe).1 = false
  · left
    have hg : (generate_blog_with_ollama probe post api blog_title keywords num_words model).1
        = cannotConnectMsg := by
      unfold generate_blog_with_ollama
      simp [h1]
    rw [hg]
    exact marked_cannotConnectMsg
  · by_cases h2 : model ∈ ((check_ollama_connection probe).2).map baseName
    · cases post with
      | timeout =>
        left
        have hg : (generate_blog_with_ollama probe GenOutcome.timeout api blog_title keywords
            num_words model).1 = timeoutMsg := by
          unfold generate_blog_with_ollama
          simp [h1, h2]
        rw [hg]
        exact marked_timeoutMsg
      | connectionError =>
        left
        have hg : (generate_blog_with_ollama probe GenOutcome.connectionError api blog_title
            keywords num_words model).1 = connectionErrorMsg api := by
          unfold generate_blog_with_ollama
          simp [h1, h2]
        rw [hg]
        exact marked_connectionErrorMsg api
      | reqException e =>
        left
        have hg : (generate_blog_with_ollama probe (GenOutcome.reqException e) api blog_title
            keywords num_words model).1 = genericErrorMsg e api := by
          unfold generate_blog_with_ollama
          simp [h1, h2]
        rw [hg]
        exact marked_genericErrorMsg e api
      | response status herr body =>
        by_cases h404 : status = 404
        · left
          have hg : (generate_blog_with_ollama probe (GenOutcome.response status herr body)
              api blog_title keywords num_words model).1
              = notFound404Msg
                  (match body with
                    | .ok b => b.error.getD "Model not found"
                    | .error _ => "404 Not Found - Model may not exist or endpoint is incorrect")
                  model api := by
            unfold generate_blog_with_ollama
            simp [h1, h2, h404]
          rw [hg]
          exact marked_notFound404Msg _ model api
        · by_cases hr : 400 ≤ status ∧ status < 600
          · left
            have hg : (generate_blog_with_ollama probe (GenOutcome.response status herr body)
                api blog_title keywords num_words model).1 = genericErrorMsg herr api := by
              unfold generate_blog_with_ollama
              simp [h1, h2, h404, hr]
            rw [hg]
            exact marked_genericErrorMsg herr api
          · cases body with
            | error e2 =>
              left
              have hg : (generate_blog_with_ollama probe
                  (GenOutcome.response status herr (Except.error e2))
                  api blog_title keywords num_words model).1 = genericErrorMsg e2 api := by
                unfold generate_blog_with_ollama
                simp [h1, h2, h404, hr]
              rw [hg]
              exact marked_genericErrorMsg e2 api
            | ok b =>
              cases hb : b.response with
              | none =>
                right; left
                unfold generate_blog_with_ollama
                simp [h1, h2, h404, hr, hb]
              | some t =>
                right; right
                refine ⟨status, herr, b, rfl, ?_⟩
                have hg : (generate_blog_with_ollama probe
                    (GenOutcome.response status herr (Except.ok b))
                    api blog_title keywords num_words model).1 = t := by
                  unfold generate_blog_with_ollama
                  simp [h1, h2, h404, hr, hb]
                rw [hg]
                exact hb
    · left
      have hg : (generate_blog_with_ollama probe post api blog_title keywords num_words model).1
          = modelNotFoundMsg model (((check_ollama_connection probe).2).map baseName) := by
        unfold generate_blog_with_ollama
        simp [h1, h2]
      rw [hg]
      exact marked_modelNotFoundMsg model _

/-- Claim C2, counterexample: the code strips version suffixes from the
probed list but not from the requested identifier, so with "llama2:7b"
installed, a request for "llama2:7b" — whose stripped base name
"llama2" is among the stripped base names of the probed list — is still
answered with the model-not-found message (and no POST is issued),
contradicting the claim that such a request succeeds the check. -/
theorem c2_counterexample_versioned_request :
    baseName "llama2:7b" ∈ ["llama2:7b"].map baseName
    ∧ generate_blog_with_ollama probeSeven postHello apiDefault
        "My Blog" "ai" 250 "llama2:7b"
      = (modelNotFoundMsg "llama2:7b" ["llama2"], false) := by
  constructor
  · decide
  · unfold generate_blog_with_ollama
    simp [check_ollama_connection, probeSeven, baseName, postHello]

/-- Claim C2 (amended): with the probe reporting available, the function
returns the model-not-found message exactly when the requested
identifier, taken verbatim (no version suffix stripped), is not among
the stripped base names of the probed model list; when the verbatim
identifier is among them the check passes and the POST is issued.  In
particular a request for "llama2:7b" fails the check even when
"llama2:7b" is installed. -/
theorem c2_amended_verbatim_membership (probe : TagsOutcome) (post : GenOutcome)
    (api blog_title keywords model : String) (num_words : Nat)
    (h : (check_ollama_connection probe).1 = true) :
    (model ∉ ((check_ollama_connection probe).2).map baseName →
      generate_blog_with_ollama probe post api blog_title keywords num_words model
        = (modelNotFoundMsg model (((check_ollama_connection probe).2).map baseName), false))
    ∧ (model ∈ ((check_ollama_connection probe).2).map baseName →
      (generate_blog_with_ollama probe post api blog_title keywords num_words model).2 = true) := by
  have h1 : ¬((check_ollama_connection probe).1 = false) := by simp [h]
  constructor
  · intro hm
    unfold generate_blog_with_ollama
    simp [h1, hm]
  · intro hm
    unfold generate_blog_with_ollama
    cases post with
    | timeout => simp [h1, hm]
    | connectionError => simp [h1, hm]
    | reqException e => simp [h1, hm]
    | response status herr body =>
      by_cases h404 : status = 404
      · simp [h1, hm, h404]
      · by_cases hr : 400 ≤ status ∧ status < 600
        · simp [h1, hm, h404, hr]
        · cases body with
          | error e2 => simp [h1, hm, h404, hr]
          | ok b => simp [h1, hm, h404, hr]

/-- Witness for C2 (amended): probed list ["llama2:latest"]; the
verbatim request "gemma" is rejected, the verbatim request "llama2"
passes and the POST is issued. -/
theorem c2_amended_verbatim_membership_witness :
    ("gemma" ∉ ((check_ollama_connection probeLlama).2).map baseName →
      generate_blog_with_ollama probeLlama postHello apiDefault
        "My Blog" "ai" 250 "gemma"
        = (modelNotFoundMsg "gemma" (((check_ollama_connection probeLlama).2).map baseName), false))
    ∧ ("llama2" ∉ ((check_ollama_connection probeLlama).2).map baseName →
      generate_blog_with_ollama probeLlama postHello apiDefault
        "My Blog" "ai" 250 "llama2"
        = (modelNotFoundMsg "llama2" (((check_ollama_connection probeLlama).2).map baseName), false))
    ∧ ("llama2" ∈ ((check_ollama_connection probeLlama).2).map baseName →
      (generate_blog_with_ollama probeLlama postHello apiDefault
        "My Blog" "ai" 250 "llama2").2 = true) :=
  ⟨(c2_amended_verbatim_membership probeLlama postHello apiDefault
      "My Blog" "ai" "gemma" 250 (by decide)).1,
   (c2_amended_verbatim_membership probeLlama postHello apiDefault
      "My Blog" "ai" "llama2" 250 (by decide)).1,
   (c2_amended_verbatim_membership probeLlama postHello apiDefault
      "My Blog" "ai" "llama2" 250 (by decide)).2⟩

/-- Claim C3, counterexample: with probed models "llama2:7b",
"llama2:13b", "mistral:latest" and the absent request "gemma", the
model-not-found message lists the base names "llama2, llama2, mistral"
— in probe order but not deduplicated — and so differs from a message
listing the deduplicated base names ["llama2", "mistral"]. -/
theorem c3_counterexample_duplicates_in_message :
    (generate_blog_with_ollama probeThree postHello apiDefault
        "My Blog" "ai" 250 "gemma").1
      = modelNotFoundMsg "gemma" ["llama2", "llama2", "mistral"]
    ∧ (generate_blog_with_ollama probeThree postHello apiDefault
        "My Blog" "ai" 250 "gemma").1
      ≠ modelNotFoundMsg "gemma"
          (dedupFirst (["llama2:7b", "llama2:13b", "mistral:latest"].map baseName)) := by
  constructor
  · unfold generate_blog_with_ollama
    simp [check_ollama_connection, probeThree, baseName, postHello]
  · unfold generate_blog_with_ollama
    simp [check_ollama_connection, probeThree, baseName, postHello]
    decide

/-- Claim C3 (amended): the model-not-found message lists exactly the
probed alternatives' base names, in probe order, with duplicates
retained (deduplication happens only in the sidebar's model options,
where the spec's example does hold: probed models "llama2:7b",
"llama2:13b", "mistral:latest" yield the options
["llama2", "mistral"] in that order). -/
theorem c3_amended_message_keeps_duplicates (probe : TagsOutcome) (post : GenOutcome)
    (api blog_title keywords model : String) (num_words : Nat)
    (h : (check_ollama_connection probe).1 = true)
    (hm : model ∉ ((check_ollama_connection probe).2).map baseName) :
    generate_blog_with_ollama probe post api blog_title keywords num_words model
      = (modelNotFoundMsg model (((check_ollama_connection probe).2).map baseName), false)
    ∧ model_options ["llama2:7b", "llama2:13b", "mistral:latest"] = ["llama2", "mistral"] := by
  have h1 : ¬((check_ollama_connection probe).1 = false) := by simp [h]
  constructor
  · unfold generate_blog_with_ollama
    simp [h1, hm]
  · decide

/-- Witness for C3 (amended) at the spec's three probed models and the
absent request "gemma". -/
theorem c3_amended_message_keeps_duplicates_witness :
    generate_blog_with_ollama probeThree postHello apiDefault
        "My Blog" "ai" 250 "gemma"
      = (modelNotFoundMsg "gemma" (((check_ollama_connection probeThree).2).map baseName), false)
    ∧ model_options ["llama2:7b", "llama2:13b", "mistral:latest"] = ["llama2", "mistral"] :=
  c3_amended_message_keeps_duplicates probeThree postHello apiDefault
    "My Blog" "ai" "gemma" 250 (by decide) (by decide)

/-- Claim C10: with a non-empty title, the submit handler renders the
generated string as an error exactly when it starts with one of the two
marker sequences; consequently a successful generation output that
itself begins with the cross-mark marker is rendered as an error box —
the constructor that carries no download affordance — rather than as
the success view with its download button. -/
theorem c10_marker_classification (probe : TagsOutcome) (post : GenOutcome)
    (api blog_title keywords model : String) (numb_words : Nat)
    (h : blog_title ≠ "") :
    (submit_button_handler probe post api blog_title keywords numb_words model
        = Rendered.errorBox
            (generate_blog_with_ollama probe post api blog_title keywords numb_words model).1
      ↔ startsWithMarker
          (generate_blog_with_ollama probe post api blog_title keywords numb_words model).1
          = true)
    ∧ submit_button_handler probeLlama
        (GenOutcome.response 200 "" (Except.ok ⟨none, some "‚ùå Breaking: my blog"⟩))
        apiDefault "My Blog" "ai" 250 "llama2"
        = Rendered.errorBox "‚ùå Breaking: my blog" := by
  constructor
  · by_cases hm : startsWithMarker
        (generate_blog_with_ollama probe post api blog_title keywords numb_words model).1 = true
    · unfold submit_button_handler
      simp [h, hm]
    · unfold submit_button_handler
      simp [h, hm]
  · unfold submit_button_handler generate_blog_with_ollama
    simp [check_ollama_connection, probeLlama, baseName]
    decide

/-- Witness for C10 with the non-empty title "My Blog". -/
theorem c10_marker_classification_witness :
    (submit_button_handler probeLlama postHello apiDefault
        "My Blog" "ai" 250 "llama2"
        = Rendered.errorBox
            (generate_blog_with_ollama probeLlama postHello apiDefault
              "My Blog" "ai" 250 "llama2").1
      ↔ startsWithMarker
          (generate_blog_with_ollama probeLlama postHello apiDefault
            "My Blog" "ai" 250 "llama2").1
          = true)
    ∧ submit_button_handler probeLlama
        (GenOutcome.response 200 "" (Except.ok ⟨none, some "‚ùå Breaking: my blog"⟩))
        apiDefault "My Blog" "ai" 250 "llama2"
        = Rendered.errorBox "‚ùå Breaking: my blog" :=
  c10_marker_classification probeLlama postHello apiDefault
    "My Blog" "ai" "llama2" 250 (by decide)
